import Mathlib

/-!
Shallow embedding of the guarded query-execution pipeline of
`src/cu_mcp/server.py` (a FastMCP server exposing read-only SQL access to a
DuckDB dataset), together with theorems settling the specification claims.

Python string primitives (`str.strip`, `str.upper`, `str.lower`,
`str.startswith`, substring membership `in`) are modelled as executable
functions over the character data of Lean `String`s; ASCII case mapping is
used, matching the keyword/identifier material the server works with.
-/

namespace CuMcp

/-- Python `pre in`-prefix test: `s.startswith(pre)` on character lists. -/
def listStartsWith : List Char → List Char → Bool
  | [], _ => true
  | _ :: _, [] => false
  | p :: ps, c :: cs => p == c && listStartsWith ps cs

/-- Python substring membership `needle in hay` on character lists. -/
def listContains (needle : List Char) : List Char → Bool
  | [] => needle.isEmpty
  | c :: cs => listStartsWith needle (c :: cs) || listContains needle cs

/-- Python `str.upper()` (ASCII case mapping, applied per character). -/
def pyUpper (s : String) : String := ⟨s.data.map Char.toUpper⟩

/-- Python `str.lower()` (ASCII case mapping, applied per character). -/
def pyLower (s : String) : String := ⟨s.data.map Char.toLower⟩

/-- Python `str.strip()`: drop leading and trailing whitespace. -/
def pyStrip (s : String) : String :=
  ⟨((s.data.dropWhile Char.isWhitespace).reverse.dropWhile Char.isWhitespace).reverse⟩

/-- Python `s.startswith(pre)`. -/
def pyStartsWith (s pre : String) : Bool := listStartsWith pre.data s.data

/-- Python substring membership `needle in hay`. -/
def pyContains (hay needle : String) : Bool := listContains needle.data hay.data

/-- Python `dict.get(key, "")` over an association list. -/
def dictGet (d : List (String × String)) (key : String) : String :=
  match d.find? (fun p => p.1 == key) with
  | some p => p.2
  | none => ""

/-- Constant `MAX_ROWS` of `server.py` (line 23): the row cap. -/
def MAX_ROWS : Nat := 1000

/-- Constant `QUERY_TIMEOUT_SECONDS` of `server.py` (line 24). -/
def QUERY_TIMEOUT_SECONDS : Nat := 10

/-- Constant `SAMPLE_ROW_LIMIT` of `server.py` (line 25). -/
def SAMPLE_ROW_LIMIT : Nat := 5

/-- Constant `FORBIDDEN_KEYWORDS` of `server.py` (line 26). The source list
holds exactly these seven keywords; it has no ATTACH and no DETACH entry. -/
def FORBIDDEN_KEYWORDS : List String :=
  ["DROP", "DELETE", "INSERT", "UPDATE", "ALTER", "CREATE", "TRUNCATE"]

/-- Constant `RECOMMENDATION` of `server.py` (line 27). -/
def RECOMMENDATION : String := "Use the cu_with_ratios view for most analytical queries"

/-- Function `is_safe_query` of `server.py` (lines 521-532): upper-case the
stripped text; reject unless it starts with SELECT; then scan the forbidden
keyword list in order and reject on the first keyword occurring as a
substring; otherwise accept. -/
def is_safe_query (query : String) : Bool × String :=
  let query_upper := pyUpper (pyStrip query)
  if pyStartsWith query_upper "SELECT" = false then
    (false, "Only SELECT queries are allowed")
  else
    match FORBIDDEN_KEYWORDS.find? (fun keyword => pyContains query_upper keyword) with
    | some keyword => (false, "Query contains forbidden keyword: " ++ keyword)
    | none => (true, "")

/-- Engine-native scalar values that can appear in a result cell: one
constructor per branch of `_serialize_value` in `server.py` (lines 441-453).
Date-like values are identified by their ISO-8601 rendering (what
`isoformat()` returns for them), numeric values by their numeric content
(a `Decimal` and a float as a rational, integers as integers). -/
inductive Scalar where
  | pdTimestamp (iso : String)
  | pyDatetime (iso : String)
  | pyDate (iso : String)
  | pyDecimal (q : Rat)
  | npInt (n : Int)
  | npFloat (q : Rat)
  | pyInt (n : Int)
  | pyFloat (q : Rat)
  | pyStr (s : String)
  | pyBool (b : Bool)
  deriving DecidableEq

/-- JSON-safe output scalars produced by the serializer. -/
inductive JsonScalar where
  | jstr (s : String)
  | jint (n : Int)
  | jnum (q : Rat)
  | jbool (b : Bool)
  deriving DecidableEq

/-- Function `_serialize_value` of `server.py` (lines 441-453): a pandas
Timestamp serializes to its ISO form via `to_pydatetime().isoformat()`, a
`datetime`/`date` to `isoformat()`, a `Decimal` to `float(value)`, a numpy
scalar unwraps via `item()`, everything else passes through. -/
def _serialize_value : Scalar → JsonScalar
  | .pdTimestamp iso => .jstr iso
  | .pyDatetime iso => .jstr iso
  | .pyDate iso => .jstr iso
  | .pyDecimal q => .jnum q
  | .npInt n => .jint n
  | .npFloat q => .jnum q
  | .pyInt n => .jint n
  | .pyFloat q => .jnum q
  | .pyStr s => .jstr s
  | .pyBool b => .jbool b

/-- A pandas DataFrame as the executor sees it: an ordered list of column
names and an ordered list of rows, each row an ordered list of cells aligned
with the columns. A `none` cell is a null marker (`frame.where(pd.notnull
(frame), None)` in the source turns every pandas null into `None` before
serialization, so cells are modelled as `Option` from the start). -/
structure DataFrame where
  columns : List String
  rows : List (List (Option Scalar))
  deriving DecidableEq

/-- Method `DataFrame.empty` of pandas: true when any axis has length 0. -/
def DataFrame.empty (frame : DataFrame) : Bool :=
  frame.rows.isEmpty || frame.columns.isEmpty

/-- Method `DataFrame.head(n)` of pandas: the first `n` rows in order. -/
def DataFrame.head (frame : DataFrame) (n : Nat) : DataFrame :=
  ⟨frame.columns, frame.rows.take n⟩

/-- Python `len(frame)`: the number of rows. -/
def DataFrame.len (frame : DataFrame) : Nat := frame.rows.length

/-- A serialized row: an ordered mapping from column name to JSON-safe value,
with `none` the explicit null marker. -/
abbrev SerializedRow := List (String × Option JsonScalar)

/-- Serialization of one row of `frame.to_dict("records")`: each column key
is paired with its cell, nulls stay `None` (the `continue` branch of the
loop in `_serialize_dataframe`), other values go through `_serialize_value`. -/
def _serialize_row (columns : List String) (row : List (Option Scalar)) : SerializedRow :=
  (columns.zip row).map (fun kc => (kc.1, kc.2.map _serialize_value))

/-- Function `_serialize_dataframe` of `server.py` (lines 456-466): an empty
frame serializes to the empty list; otherwise every row becomes an ordered
record in row order. -/
def _serialize_dataframe (frame : DataFrame) : List SerializedRow :=
  if frame.empty then []
  else frame.rows.map (_serialize_row frame.columns)

/-- Path constant `DB_PATH` of `server.py` (line 22), relative to the
install prefix `BASE_DIR` (abstracted away). -/
def DB_PATH : String := "data/cu_data.duckdb"

/-- A DuckDB connection handle, recording the mode it was opened with. -/
structure Connection where
  read_only : Bool
  deriving DecidableEq

/-- Function `_get_connection` of `server.py` (lines 432-434):
`duckdb.connect(str(DB_PATH), read_only=True)` — the connection is always
opened with `read_only=True`. -/
def _get_connection : Connection := { read_only := true }

/-- Record of running a body inside `with _get_connection() as conn:`. The
Python `with` statement runs `__exit__` (closing the connection) on every
exit path — normal return and raised exception alike — so the scope always
releases the connection it opened before the surrounding call returns, and
the connection it hands to the body is the one `_get_connection` opened. -/
structure ScopedUse (α : Type) where
  value : α
  opened_read_only : Bool
  released_before_return : Bool

/-- Semantics of `with _get_connection() as conn: body`. -/
def withConnection {α : Type} (body : Connection → α) : ScopedUse α :=
  { value := body _get_connection
    opened_read_only := _get_connection.read_only
    released_before_return := true }

/-- Outcome of `future.result(timeout=QUERY_TIMEOUT_SECONDS)` for the one
submitted worker: the worker's statement was still running at the deadline
(`TimeoutError`), the worker body raised (`Exception` re-raised from the
future), or the worker completed with a result frame. -/
inductive FutureResult where
  | timedOut
  | raised (msg : String)
  | completed (frame : DataFrame)
  deriving DecidableEq

/-- The database engine as the worker body sees it: given the connection and
the SQL text submitted through `conn.execute(query).fetchdf()`, it produces
the future's outcome. -/
abbrev Engine := Connection → String → FutureResult

/-- The nested worker body `_run_query` of `execute_sql` (lines 487-489):
open a scoped read-only connection and run the caller's query text on it. -/
def _run_query (engine : Engine) (query : String) : ScopedUse FutureResult :=
  withConnection (fun conn => engine conn query)

/-- Response envelope of `execute_sql`: either an error dict
`{error, query, hint?}` or a success dict `{data, row_count, query,
warning?}`. -/
inductive SqlResponse where
  | failure (error : String) (query : String) (hint : Option String)
  | success (data : List SerializedRow) (row_count : Nat) (query : String)
      (warning : Option String)
  deriving DecidableEq

/-- The part of `execute_sql` (lines 491-518) that runs once validation has
passed: submit the original, unmodified query text to the single worker;
convert a `TimeoutError` and any engine exception into error envelopes; on
success truncate to `MAX_ROWS` rows, attaching the "Results limited" warning
exactly when truncation happened. -/
def run_validated (engine : Engine) (query : String) : SqlResponse :=
  match (_run_query engine query).value with
  | .timedOut =>
      .failure ("Query exceeded " ++ toString QUERY_TIMEOUT_SECONDS ++ " second timeout")
        query (some "Simplify filters or aggregate before returning large result sets")
  | .raised msg =>
      .failure ("Query execution failed: " ++ msg) query
        (some "Check table/column names using get_schema tool")
  | .completed result_df =>
      if result_df.len > MAX_ROWS then
        .success (_serialize_dataframe (result_df.head MAX_ROWS))
          (result_df.head MAX_ROWS).len query
          (some ("Results limited to " ++ toString MAX_ROWS ++ " rows (too many to display)"))
      else
        .success (_serialize_dataframe result_df) result_df.len query none

/-- Tool `execute_sql` of `server.py` (lines 476-518): reject empty input
(`if query is None or not str(query).strip()`), validate with
`is_safe_query`, then run the validated text. -/
def execute_sql (engine : Engine) (query : String) : SqlResponse :=
  if pyStrip query = "" then
    .failure "Query cannot be empty" query none
  else
    let verdict := is_safe_query query
    if verdict.1 = false then
      .failure verdict.2 query none
    else
      run_validated engine query

/-- Dictionary `TABLE_DESCRIPTIONS` of `server.py` (lines 29-48). -/
def TABLE_DESCRIPTIONS : List (String × String) :=
  [ ("cu_with_ratios", "⭐ Consolidated view that joins identifying info with pre-calculated ratios"),
    ("foicu", "Credit union identity (charter, branchings, geography)"),
    ("fs220", "Primary financial schedule with core account balances"),
    ("fs220a", "Supplemental schedule (non-interest income, employee stats)"),
    ("fs220b", "Breakouts for investment balances"),
    ("fs220c", "Allowance and delinquency metrics"),
    ("fs220g", "Member business loan detail"),
    ("fs220h", "Mortgage and real estate balances"),
    ("fs220i", "Indirect lending detail"),
    ("fs220j", "Deposit and share account detail"),
    ("fs220k", "Capital and net worth detail"),
    ("fs220l", "Income statement breakouts"),
    ("fs220m", "Expense detail"),
    ("fs220n", "Other operating income detail"),
    ("fs220p", "Product penetration data"),
    ("fs220q", "Member service measurements"),
    ("fs220r", "Technology and channel usage"),
    ("acctdesc", "Account code dictionary mapping acct_XXX columns to names") ]

/-- Dictionary `COLUMN_DESCRIPTIONS` of `server.py` (lines 50-72). -/
def COLUMN_DESCRIPTIONS : List (String × String) :=
  [ ("cu_number", "Unique credit union identifier assigned by the NCUA"),
    ("cycle_date", "Quarter end date for the reported metrics"),
    ("cu_name", "Credit union legal name"),
    ("city", "Headquarters city"),
    ("state", "Two-letter state or territory code"),
    ("assets", "Total assets reported for the quarter"),
    ("member_count", "Number of members"),
    ("member_growth_yoy", "Year-over-year member growth percentage"),
    ("loan_growth_yoy", "Year-over-year loan balance growth percentage"),
    ("share_growth_yoy", "Year-over-year share/deposit growth percentage"),
    ("asset_growth_yoy", "Year-over-year asset growth percentage"),
    ("roa", "Return on Assets (annualized percentage)"),
    ("efficiency_ratio", "Operating expenses as % of revenue (lower is better, typical range 50-90%)"),
    ("operating_expense_ratio", "Operating expenses as % of assets (annualized, different from efficiency ratio)"),
    ("loan_to_share_ratio", "Loan to share (deposit) ratio"),
    ("net_worth_ratio", "Net worth ratio (capital / assets)"),
    ("net_interest_margin", "Net interest income as % of assets (typical range 2-4%)"),
    ("non_interest_income_ratio", "Non-interest income as % of assets (annualized)"),
    ("members_per_employee", "Average members per full-time employee"),
    ("indirect_lending_ratio", "Indirect lending share of total loans"),
    ("avg_member_relationship", "Average relationship per member in dollars") ]

/-- Function `_table_type_to_string` of `server.py` (lines 469-470):
`"view" if table_type and table_type.upper() == "VIEW" else "table"`. -/
def _table_type_to_string (table_type : String) : String :=
  if table_type != "" && pyUpper table_type == "VIEW" then "view" else "table"

/-- One user-visible relation of the DuckDB catalog, as the queries of
`get_schema` observe it through the connection: its `information_schema`
name and `table_type`, its `PRAGMA table_info` column (name, declared type)
pairs, its live `COUNT(*)` row count, and the frames the two possible
sample queries return — rows of the most recent `cycle_date`
(`sample_latest_cycle`) and the first `SAMPLE_ROW_LIMIT` rows in natural
storage order (`sample_first_rows`). -/
structure RelationData where
  name : String
  table_type : String
  columns : List (String × String)
  row_count : Nat
  sample_latest_cycle : DataFrame
  sample_first_rows : DataFrame
  deriving DecidableEq

/-- The dataset catalog in its enumeration order (the order
`information_schema.tables` yields rows in, before any ORDER BY). -/
abbrev Database := List RelationData

/-- Insertion of an element into a sorted list, for ORDER BY semantics. -/
def insertSorted {α : Type} (le : α → α → Bool) (x : α) : List α → List α
  | [] => [x]
  | y :: ys => if le x y then x :: y :: ys else y :: insertSorted le x ys

/-- Sorting by a boolean order, for ORDER BY semantics. -/
def sortBy {α : Type} (le : α → α → Bool) (l : List α) : List α :=
  l.foldr (insertSorted le) []

/-- One entry of the table listing `get_schema` returns without a
`table_name` argument. -/
structure TableListing where
  name : String
  type : String
  description : String
  deriving DecidableEq

/-- One entry of the `columns` list of a schema record. -/
structure ColumnRecord where
  name : String
  type : String
  description : String
  deriving DecidableEq

/-- The schema record `get_schema` returns for a resolved relation. -/
structure SchemaRecord where
  table_name : String
  type : String
  description : String
  columns : List ColumnRecord
  row_count : Nat
  sample_data : List SerializedRow
  deriving DecidableEq

/-- Response envelope of `get_schema`: the table listing with the
recommendation, an error dict, or a full schema record. -/
inductive SchemaResponse where
  | listing (tables : List TableListing) (recommendation : String)
  | error (msg : String)
  | detail (record : SchemaRecord)
  deriving DecidableEq

/-- The catalog lookup of `get_schema`'s describe path (lines 564-573):
`WHERE ... LOWER(table_name) = ? LIMIT 1` with the stripped, lower-cased
caller name as parameter — the first relation in enumeration order whose
lower-cased name equals the lower-cased key. -/
def lookup_table (db : Database) (normalized_name : String) : Option RelationData :=
  db.find? (fun r => pyLower r.name == pyLower normalized_name)

/-- The body of tool `get_schema` of `server.py` (lines 536-615), run inside
the connection scope. Without a (truthy) `table_name` it lists all relations
sorted by name; otherwise it strips the name, rejects an empty result,
resolves the relation case-insensitively, and returns a not-found error or
the full schema record (whose sample frame comes from the most recent
`cycle_date` when the relation has a `cycle_date` column, else from the
first rows in storage order). -/
def get_schema_body (db : Database) (table_name : Option String) : SchemaResponse :=
  if table_name = none ∨ table_name = some "" then
    .listing
      ((sortBy (fun a b => decide (a.name ≤ b.name)) db).map (fun r =>
        { name := r.name
          type := _table_type_to_string r.table_type
          description := dictGet TABLE_DESCRIPTIONS r.name }))
      RECOMMENDATION
  else
    let tn := table_name.getD ""
    let normalized_name := pyStrip tn
    if normalized_name = "" then
      .error "table_name cannot be empty"
    else
      match lookup_table db normalized_name with
      | none => .error ("Table or view '" ++ tn ++ "' not found")
      | some r =>
          let column_records := r.columns.map (fun c =>
            { name := c.1
              type := c.2
              description := dictGet COLUMN_DESCRIPTIONS c.1 : ColumnRecord })
          let sample_df :=
            if (r.columns.map (fun c => pyLower c.1)).contains "cycle_date" then
              r.sample_latest_cycle
            else r.sample_first_rows
          .detail
            { table_name := r.name
              type := _table_type_to_string r.table_type
              description := dictGet TABLE_DESCRIPTIONS r.name
              columns := column_records
              row_count := r.row_count
              sample_data := _serialize_dataframe sample_df }

/-- Tool `get_schema` as a whole: its body runs inside
`with _get_connection() as conn:`. -/
def get_schema (db : Database) (table_name : Option String) : ScopedUse SchemaResponse :=
  withConnection (fun _conn => get_schema_body db table_name)

/-- Set `ALLOWED_CATEGORIES` of `server.py` (line 74), in literal order. -/
def ALLOWED_CATEGORIES : List String :=
  ["search", "comparison", "ranking", "trends", "financial_analysis"]

/-- One entry of the static example-query catalog. -/
structure ExampleQuery where
  category : String
  title : String
  description : String
  sql : String
  use_case : String
  deriving DecidableEq, Inhabited

/-- Catalog `EXAMPLE_QUERIES` of `server.py` (lines 77-401), with every SQL
text transcribed verbatim from the triple-quoted literals of the source. -/
def EXAMPLE_QUERIES : List ExampleQuery :=
  [ { category := "search"
      title := "Find credit unions by name pattern"
      description := "Locate credit unions that partially match a provided name substring"
      sql := "-- Use LOWER() with wildcards so name matching is flexible
SELECT cu_name, state, city, assets, member_count
FROM cu_with_ratios
WHERE LOWER(cu_name) LIKE '%navy%'
  AND cycle_date = (SELECT MAX(cycle_date) FROM cu_with_ratios)
ORDER BY assets DESC;"
      use_case := "When users only know part of the credit union's name" },
    { category := "search"
      title := "Filter by state and asset threshold"
      description := "State-level screening with asset floors for size comparisons"
      sql := "-- Latest quarter filter keeps the result list current
SELECT cu_name, city, assets, member_count, roa
FROM cu_with_ratios
WHERE state = 'WA'
  AND assets > 500000000
  AND cycle_date = (SELECT MAX(cycle_date) FROM cu_with_ratios)
ORDER BY assets DESC;"
      use_case := "Great starting point for \"show me CUs in <state> above $X\" questions" },
    { category := "search"
      title := "Multi-criteria performance search"
      description := "Combine efficiency, ROA, and size filters to find standout performers"
      sql := "-- Keep criteria explicit so LLMs can easily tweak thresholds
SELECT cu_name, state, assets, roa, efficiency_ratio
FROM cu_with_ratios
WHERE cycle_date = (SELECT MAX(cycle_date) FROM cu_with_ratios)
  AND roa > 1.0
  AND efficiency_ratio < 70
  AND assets > 100000000
ORDER BY roa DESC;"
      use_case := "Use when the user lists multiple numeric constraints" },
    { category := "search"
      title := "Find CUs by metric range"
      description := "Filter on ROA within a desired band to control volatility"
      sql := "-- BETWEEN keeps ROA within a manageable band
SELECT cu_name, state, assets, roa, efficiency_ratio
FROM cu_with_ratios
WHERE cycle_date = (SELECT MAX(cycle_date) FROM cu_with_ratios)
  AND roa BETWEEN 1.0 AND 2.0
ORDER BY roa DESC;"
      use_case := "Answer \"find CUs with ROA between 1% and 2%\" style prompts" },
    { category := "comparison"
      title := "Compare two specific credit unions"
      description := "Side-by-side snapshot for two named institutions"
      sql := "-- Provide consistent list of key operating metrics
SELECT cu_name, assets, roa, efficiency_ratio, net_worth_ratio, loan_to_share_ratio
FROM cu_with_ratios
WHERE cu_name IN ('NAVY FEDERAL CREDIT UNION', 'PENTAGON FEDERAL CREDIT UNION')
  AND cycle_date = (SELECT MAX(cycle_date) FROM cu_with_ratios);"
      use_case := "Use when the user mentions two institutions explicitly" },
    { category := "comparison"
      title := "Compare a CU to its state peers"
      description := "Rank a target CU in the context of other CUs in the same state"
      sql := "-- Use window functions for percentile style context
WITH state_peers AS (
    SELECT cu_name,
           state,
           assets,
           roa,
           efficiency_ratio,
           PERCENT_RANK() OVER (ORDER BY assets) AS asset_percentile
    FROM cu_with_ratios
    WHERE state = 'WA'
      AND cycle_date = (SELECT MAX(cycle_date) FROM cu_with_ratios)
)
SELECT *
FROM state_peers
ORDER BY assets DESC
LIMIT 20;"
      use_case := "Good follow-up when users ask how a CU compares to others nearby" },
    { category := "comparison"
      title := "Compare CU metrics to national averages"
      description := "Show how a selected CU stacks up against US-wide averages"
      sql := "-- Compute national averages then join back for context
WITH latest AS (
    SELECT *
    FROM cu_with_ratios
    WHERE cycle_date = (SELECT MAX(cycle_date) FROM cu_with_ratios)
),
national AS (
    SELECT AVG(roa) AS avg_roa,
           AVG(efficiency_ratio) AS avg_efficiency,
           AVG(net_worth_ratio) AS avg_net_worth
    FROM latest
)
SELECT l.cu_name,
       l.state,
       l.assets,
       l.roa,
       l.efficiency_ratio,
       l.net_worth_ratio,
       n.avg_roa,
       n.avg_efficiency,
       n.avg_net_worth
FROM latest AS l
CROSS JOIN national AS n
WHERE l.cu_name = 'NAVY FEDERAL CREDIT UNION';"
      use_case := "When the prompt mentions \"national average\" or \"typical CU\"" },
    { category := "ranking"
      title := "Top 10 by assets"
      description := "Basic league-table ranked by total assets"
      sql := "-- Keep ORDER BY aligned with ranking metric
SELECT cu_name, state, assets, roa
FROM cu_with_ratios
WHERE cycle_date = (SELECT MAX(cycle_date) FROM cu_with_ratios)
ORDER BY assets DESC
LIMIT 10;"
      use_case := "Answer \"largest credit unions\" questions" },
    { category := "ranking"
      title := "Bottom 10 by efficiency ratio"
      description := "Identify most efficient operators using ASC ordering"
      sql := "-- Lower efficiency ratio is better
SELECT cu_name, state, assets, efficiency_ratio
FROM cu_with_ratios
WHERE cycle_date = (SELECT MAX(cycle_date) FROM cu_with_ratios)
  AND efficiency_ratio IS NOT NULL
ORDER BY efficiency_ratio ASC
LIMIT 10;"
      use_case := "Useful when looking for \"most efficient\" institutions" },
    { category := "ranking"
      title := "Top ROA performers with size filter"
      description := "Rank ROA but exclude very small CUs for stability"
      sql := "-- Add an assets filter to focus on meaningful peers
SELECT cu_name, state, assets, roa, efficiency_ratio
FROM cu_with_ratios
WHERE cycle_date = (SELECT MAX(cycle_date) FROM cu_with_ratios)
  AND roa IS NOT NULL
  AND assets > 100000000
ORDER BY roa DESC
LIMIT 15;"
      use_case := "Use when asked for \"top performers\"" },
    { category := "ranking"
      title := "Ranking within a state"
      description := "Dense_rank within a single state to show position"
      sql := "-- Window functions keep ordinal ranking with ties
WITH latest AS (
    SELECT *
    FROM cu_with_ratios
    WHERE cycle_date = (SELECT MAX(cycle_date) FROM cu_with_ratios)
),
ranked AS (
    SELECT cu_name,
           state,
           assets,
            roa,
           DENSE_RANK() OVER (PARTITION BY state ORDER BY roa DESC) AS roa_rank
    FROM latest
    WHERE state = 'CA'
)
SELECT *
FROM ranked
WHERE roa_rank <= 10
ORDER BY roa_rank;"
      use_case := "When the request narrows to a particular geography" },
    { category := "trends"
      title := "Show metrics over time for one CU"
      description := "List every quarter for a CU to analyze trajectory"
      sql := "-- No date filter so all quarters are returned
SELECT cycle_date, cu_name, assets, roa, efficiency_ratio, member_count
FROM cu_with_ratios
WHERE cu_name = 'NAVY FEDERAL CREDIT UNION'
ORDER BY cycle_date;"
      use_case := "Use when the prompt says \"over time\" or \"trend\"" },
    { category := "trends"
      title := "Quarter-over-quarter growth"
      description := "Use window functions to calculate QoQ deltas"
      sql := "-- LAG() compares the current quarter to the previous
WITH ordered AS (
    SELECT cu_name,
           cycle_date,
           assets,
           LAG(assets) OVER (PARTITION BY cu_name ORDER BY cycle_date) AS prev_assets,
           member_count,
           LAG(member_count) OVER (PARTITION BY cu_name ORDER BY cycle_date) AS prev_members
    FROM cu_with_ratios
    WHERE cu_name = 'NAVY FEDERAL CREDIT UNION'
)
SELECT cu_name,
       cycle_date,
       assets,
       prev_assets,
       (assets - prev_assets) / NULLIF(prev_assets, 0) * 100 AS assets_qoq_growth,
       member_count,
       prev_members,
       (member_count - prev_members) / NULLIF(prev_members, 0) * 100 AS member_qoq_growth
FROM ordered
ORDER BY cycle_date;"
      use_case := "When asked about sequential quarter changes" },
    { category := "trends"
      title := "Year-over-year comparison"
      description := "Show YOY metrics already calculated in the dataset"
      sql := "-- Uses the *_growth_yoy columns baked into cu_with_ratios
SELECT cu_name,
       cycle_date,
       member_growth_yoy,
       loan_growth_yoy,
       share_growth_yoy
FROM cu_with_ratios
WHERE cu_name LIKE '%NAVY FEDERAL%'
  AND member_growth_yoy IS NOT NULL
ORDER BY cycle_date;"
      use_case := "Quickly answer YOY questions without extra math" },
    { category := "trends"
      title := "Identify improving efficiency"
      description := "Aggregate min/max efficiency to gauge improvement"
      sql := "-- Improvement = worst minus best (positive means trending better)
WITH stats AS (
    SELECT cu_name,
           state,
           MIN(efficiency_ratio) AS best_efficiency,
           MAX(efficiency_ratio) AS worst_efficiency
    FROM cu_with_ratios
    WHERE efficiency_ratio IS NOT NULL
    GROUP BY cu_name, state
)
SELECT cu_name,
       state,
       worst_efficiency - best_efficiency AS improvement
FROM stats
WHERE worst_efficiency - best_efficiency >= 5
ORDER BY improvement DESC
LIMIT 20;"
      use_case := "Surface CUs that improved cost structure materially" },
    { category := "financial_analysis"
      title := "High performers across multiple metrics"
      description := "Filter on ROA, efficiency, net worth, and size simultaneously"
      sql := "-- Combine thresholds to satisfy complex multi-metric prompts
SELECT cu_name, state, assets, roa, efficiency_ratio, net_worth_ratio
FROM cu_with_ratios
WHERE cycle_date = (SELECT MAX(cycle_date) FROM cu_with_ratios)
  AND roa > 1.0
  AND efficiency_ratio < 70
  AND net_worth_ratio > 10
  AND assets > 100000000
ORDER BY roa DESC;"
      use_case := "Answer \"find top performers by multiple metrics\" questions" },
    { category := "financial_analysis"
      title := "Percentile analysis"
      description := "Use percent_rank to compute ROA percentile"
      sql := "-- Multiply PERCENT_RANK by 100 to express as percentile
WITH latest AS (
    SELECT *
    FROM cu_with_ratios
    WHERE cycle_date = (SELECT MAX(cycle_date) FROM cu_with_ratios)
      AND roa IS NOT NULL
)
SELECT cu_name,
       state,
       assets,
       roa,
       PERCENT_RANK() OVER (ORDER BY roa) * 100 AS roa_percentile
FROM latest
ORDER BY roa DESC
LIMIT 50;"
      use_case := "Useful for \"top quartile\" or \"top 25%\" prompts" },
    { category := "financial_analysis"
      title := "Correlation between ROA and loan-to-share ratio"
      description := "Quantify how two metrics move together"
      sql := "-- DuckDB corr() function quickly summarizes the relationship
WITH latest AS (
    SELECT roa, loan_to_share_ratio
    FROM cu_with_ratios
    WHERE cycle_date = (SELECT MAX(cycle_date) FROM cu_with_ratios)
      AND roa IS NOT NULL
      AND loan_to_share_ratio IS NOT NULL
)
SELECT corr(roa, loan_to_share_ratio) AS roa_vs_loan_to_share_corr
FROM latest;"
      use_case := "When users ask \"do CUs with X tend to have Y\"" },
    { category := "financial_analysis"
      title := "Geographic averages"
      description := "Aggregate by state to summarize efficiency and ROA"
      sql := "-- Aggregate metrics to build quick state scorecards
SELECT state,
       COUNT(*) AS cu_count,
       AVG(assets) AS avg_assets,
       AVG(roa) AS avg_roa,
       AVG(efficiency_ratio) AS avg_efficiency
FROM cu_with_ratios
WHERE cycle_date = (SELECT MAX(cycle_date) FROM cu_with_ratios)
GROUP BY state
ORDER BY avg_assets DESC;"
      use_case := "Use for \"state level averages\" prompts" } ]

/-- Response envelope of `get_example_queries`: either the unknown-category
error dict or the (possibly filtered) catalog with its note. -/
inductive ExampleResponse where
  | unknownCategory (error : String) (category : String) (allowed_categories : List String)
  | catalog (category : String) (examples : List ExampleQuery)
      (available_categories : List String) (note : String)
  deriving DecidableEq

/-- Python `sorted(ALLOWED_CATEGORIES)`. -/
def sortedCategories : List String := sortBy (fun a b => decide (a ≤ b)) ALLOWED_CATEGORIES

/-- Tool `get_example_queries` of `server.py` (lines 618-640). A falsy
`category` (absent or the empty string) yields the full catalog under the
label "all"; otherwise the stripped, lower-cased category must be in
`ALLOWED_CATEGORIES`, else the error dict names the allowed set. -/
def get_example_queries (category : Option String) : ExampleResponse :=
  if category = none ∨ category = some "" then
    .catalog "all" EXAMPLE_QUERIES sortedCategories
      "All queries reference the cu_with_ratios view and can be used as-is"
  else
    let c := category.getD ""
    let normalized := pyLower (pyStrip c)
    if ALLOWED_CATEGORIES.contains normalized = false then
      .unknownCategory "Unknown category" c sortedCategories
    else
      .catalog normalized (EXAMPLE_QUERIES.filter (fun ex => ex.category == normalized))
        sortedCategories
        "All queries reference the cu_with_ratios view and can be used as-is"

/-- The message of the `FileNotFoundError` that `_ensure_database`
(`server.py` lines 425-429) raises when the dataset file is absent. -/
def db_missing_message : String :=
  "Database not found at " ++ DB_PATH ++
    ". Ensure cu_data.duckdb is placed in the data/ directory."

/-- Function `_ensure_database` of `server.py` (lines 425-429): raises
`FileNotFoundError` (modelled as `Except.error`) when `DB_PATH` does not
exist. -/
def _ensure_database (db_exists : Bool) : Except String Unit :=
  if db_exists then .ok () else .error db_missing_message

/-- Tool boundary of `execute_sql`. Every raise-site of the body sits inside
the `try`/`except` of lines 491-506: a missing database file makes
`_get_connection` raise inside the worker, `future.result` re-raises it, and
the `except Exception` clause converts it (like every other engine
exception) into the error envelope, so the tool always returns an envelope. -/
def execute_sql_tool (db_exists : Bool) (engine : Engine) (query : String) :
    Except String SqlResponse :=
  .ok (execute_sql
    (fun conn q => if db_exists then engine conn q else .raised db_missing_message) query)

/-- Tool boundary of `get_schema`. The body of `get_schema` (lines 536-615)
has no `try`/`except`: `with _get_connection() as conn:` sits at the top of
the function, so the `FileNotFoundError` raised by `_ensure_database` when
the dataset file is absent propagates out of the tool unhandled. -/
def get_schema_tool (db_exists : Bool) (db : Database) (table_name : Option String) :
    Except String SchemaResponse :=
  match _ensure_database db_exists with
  | .error e => .error e
  | .ok _ => .ok (get_schema db table_name).value

/-- Tool boundary of `get_example_queries`: a pure lookup over static data
with no raise-site, it always returns an envelope. -/
def get_example_queries_tool (category : Option String) : Except String ExampleResponse :=
  .ok (get_example_queries category)

/-- Wall-clock time, in seconds after the worker was submitted, at which the
caller of `execute_sql` regains control, for a worker whose statement takes
`worker_duration` seconds. If the worker finishes within the deadline,
`future.result(timeout=QUERY_TIMEOUT_SECONDS)` returns when it finishes. If
not, `future.result` raises `concurrent.futures.TimeoutError` at the
deadline — but the executor is used as a context manager
(`with concurrent.futures.ThreadPoolExecutor(max_workers=1) as executor:`,
lines 492-494), and the exception leaving the `with` block runs
`ThreadPoolExecutor.__exit__`, which is `shutdown(wait=True)`: it joins the
still-running worker thread, so control reaches the `except
concurrent.futures.TimeoutError` clause only once the abandoned statement
has naturally finished at `worker_duration`. -/
def caller_unblock_time (worker_duration : Nat) : Nat :=
  if worker_duration > QUERY_TIMEOUT_SECONDS then
    max QUERY_TIMEOUT_SECONDS worker_duration
  else worker_duration

/-- Concrete 1001-row result frame used by witnesses. -/
def capWitnessFrame : DataFrame :=
  ⟨["c"], List.replicate 1001 [some (Scalar.pyInt 1)]⟩

/-- Concrete catalog relation used by witnesses. -/
def schemaWitnessRel : RelationData :=
  { name := "foicu"
    table_type := "BASE TABLE"
    columns := [("cu_number", "BIGINT")]
    row_count := 3
    sample_latest_cycle := ⟨[], []⟩
    sample_first_rows := ⟨[], []⟩ }

/-- Concrete one-relation catalog used by witnesses. -/
def schemaWitnessDb : Database := [schemaWitnessRel]

end CuMcp

namespace CuMcp

/-- The claim of C1 fails on the source in two ways, witnessed here. First,
`FORBIDDEN_KEYWORDS` has no ATTACH (and no DETACH) entry, so the input
"SELECT ATTACH", which contains ATTACH as a substring, is accepted. Second,
the keyword scan runs only after the SELECT-prefix test, so "DROP TABLE T",
which contains the blocklisted DROP, is rejected with the generic
SELECT-only reason instead of one naming DROP. -/
theorem is_safe_query_attach_counterexample :
    (pyContains (pyUpper (pyStrip "SELECT ATTACH")) "ATTACH" = true ∧
      is_safe_query "SELECT ATTACH" = (true, "")) ∧
    (pyContains (pyUpper (pyStrip "DROP TABLE T")) "DROP" = true ∧
      is_safe_query "DROP TABLE T" = (false, "Only SELECT queries are allowed")) := by
  decide

/-- Amended C1: for every input whose stripped upper-cased text starts with
SELECT and contains one of the seven blocklisted keywords (DROP, DELETE,
INSERT, UPDATE, ALTER, CREATE, TRUNCATE — ATTACH and DETACH are not in the
source's list) as a substring anywhere — including inside string literals,
comments, or identifiers — `is_safe_query` rejects the input with a reason
naming an offending keyword from that list. -/
theorem is_safe_query_blocklist :
    ∀ (query kw : String), kw ∈ FORBIDDEN_KEYWORDS →
      pyStartsWith (pyUpper (pyStrip query)) "SELECT" = true →
      pyContains (pyUpper (pyStrip query)) kw = true →
      ∃ kw', kw' ∈ FORBIDDEN_KEYWORDS ∧
        pyContains (pyUpper (pyStrip query)) kw' = true ∧
        is_safe_query query = (false, "Query contains forbidden keyword: " ++ kw') := by
  intro query kw hkw hsel hcont
  cases hfind : FORBIDDEN_KEYWORDS.find?
      (fun keyword => pyContains (pyUpper (pyStrip query)) keyword) with
  | none =>
    exact absurd hcont (by simpa using List.find?_eq_none.mp hfind kw hkw)
  | some kw' =>
    refine ⟨kw', List.mem_of_find?_eq_some hfind, by simpa using List.find?_some hfind, ?_⟩
    simp only [is_safe_query, hsel, Bool.true_eq_false, if_false, hfind]

/-- Witness for `is_safe_query_blocklist` at the concrete input "SELECT DROP". -/
theorem is_safe_query_blocklist_witness :
    ("DROP" ∈ FORBIDDEN_KEYWORDS ∧
      pyStartsWith (pyUpper (pyStrip "SELECT DROP")) "SELECT" = true ∧
      pyContains (pyUpper (pyStrip "SELECT DROP")) "DROP" = true) ∧
    (∃ kw', kw' ∈ FORBIDDEN_KEYWORDS ∧
      pyContains (pyUpper (pyStrip "SELECT DROP")) kw' = true ∧
      is_safe_query "SELECT DROP" = (false, "Query contains forbidden keyword: " ++ kw')) :=
  ⟨⟨by decide, by decide, by decide⟩,
    is_safe_query_blocklist "SELECT DROP" "DROP" (by decide) (by decide) (by decide)⟩

end CuMcp

namespace CuMcp

/-- Helper: the keyword-naming rejection message never equals the
SELECT-only rejection message, whatever the keyword. -/
theorem keyword_msg_ne_select_msg (kw : String) :
    ("Query contains forbidden keyword: " ++ kw) ≠ "Only SELECT queries are allowed" := by
  intro h
  have hlen := congrArg String.length h
  rw [String.length_append] at hlen
  have h1 : ("Query contains forbidden keyword: ").length = 34 := by decide
  have h2 : ("Only SELECT queries are allowed").length = 31 := by decide
  omega

/-- Helper: stripping the empty string yields the empty string. -/
theorem pyStrip_empty : pyStrip "" = "" := rfl

/-- Helper: an accepted query's stripped upper-cased text starts with SELECT. -/
theorem is_safe_query_valid_starts_select (query : String)
    (h : (is_safe_query query).1 = true) :
    pyStartsWith (pyUpper (pyStrip query)) "SELECT" = true := by
  cases hb : pyStartsWith (pyUpper (pyStrip query)) "SELECT" with
  | true => rfl
  | false => simp [is_safe_query, hb] at h

/-- Helper: an accepted query does not strip to the empty string. -/
theorem is_safe_query_valid_not_blank (query : String)
    (h : (is_safe_query query).1 = true) : pyStrip query ≠ "" := by
  intro h0
  have hsel := is_safe_query_valid_starts_select query h
  rw [h0] at hsel
  exact absurd hsel (by decide)

/-- Helper: a rejected-by-validation, non-blank query makes `execute_sql`
return the validator's message as the error envelope, with no hint. -/
theorem execute_sql_rejects_invalid (engine : Engine) (query msg : String)
    (h1 : pyStrip query ≠ "") (h2 : is_safe_query query = (false, msg)) :
    execute_sql engine query = .failure msg query none := by
  simp [execute_sql, h1, h2]

/-- The claim of C4 fails on the source: neither the validator nor
`execute_sql` ever produces the reason "empty query". The validator rejects
the empty and the all-whitespace input with the SELECT-only reason (it has
no emptiness rule of its own), and `execute_sql` intercepts such input
before validation with the distinct reason "Query cannot be empty". -/
theorem empty_query_reason_counterexample :
    is_safe_query "" = (false, "Only SELECT queries are allowed") ∧
    is_safe_query "   " = (false, "Only SELECT queries are allowed") ∧
    execute_sql (fun _ _ => FutureResult.timedOut) "" =
      .failure "Query cannot be empty" "" none ∧
    execute_sql (fun _ _ => FutureResult.timedOut) "   " =
      .failure "Query cannot be empty" "   " none ∧
    ("Query cannot be empty" ≠ "empty query") ∧
    ("Only SELECT queries are allowed" ≠ "empty query") := by
  decide

/-- Amended C4: every input that is empty or consists only of whitespace is
rejected before execution — `execute_sql` returns the stable error "Query
cannot be empty" (produced by its own emptiness guard, not by the
validator), and `is_safe_query` itself, given such input, rejects with the
SELECT-only reason. -/
theorem empty_query_rejected :
    ∀ (query : String) (engine : Engine), pyStrip query = "" →
      execute_sql engine query = .failure "Query cannot be empty" query none ∧
      is_safe_query query = (false, "Only SELECT queries are allowed") := by
  intro query engine h
  constructor
  · simp [execute_sql, h]
  · have hb : pyStartsWith (pyUpper (pyStrip query)) "SELECT" = false := by
      rw [h]; decide
    simp [is_safe_query, hb]

/-- Witness for `empty_query_rejected` at the whitespace-only input. -/
theorem empty_query_rejected_witness :
    (pyStrip " \t " = "") ∧
    (execute_sql (fun _ _ => FutureResult.timedOut) " \t " =
        .failure "Query cannot be empty" " \t " none ∧
      is_safe_query " \t " = (false, "Only SELECT queries are allowed")) :=
  ⟨by decide, empty_query_rejected " \t " (fun _ _ => FutureResult.timedOut) (by decide)⟩

/-- Confirmation of C6: after stripping whitespace and upper-casing for
comparison only, the statement-shape rule accepts exactly the inputs whose
text begins with SELECT; any other input is rejected with the reason "Only
SELECT queries are allowed" (quoted in the spec in sentence case); and a
validated query reaches the execution stage as the original, unmodified
text — `run_validated` submits `query` itself to the engine. -/
theorem select_shape_rule :
    ∀ (query : String) (engine : Engine),
      (pyStartsWith (pyUpper (pyStrip query)) "SELECT" = false →
        is_safe_query query = (false, "Only SELECT queries are allowed")) ∧
      (pyStartsWith (pyUpper (pyStrip query)) "SELECT" = true →
        is_safe_query query ≠ (false, "Only SELECT queries are allowed")) ∧
      ((is_safe_query query).1 = true →
        execute_sql engine query = run_validated engine query) := by
  intro query engine
  refine ⟨?_, ?_, ?_⟩
  · intro hb
    simp [is_safe_query, hb]
  · intro hb
    simp only [is_safe_query, hb, Bool.true_eq_false, if_false]
    cases hfind : FORBIDDEN_KEYWORDS.find?
        (fun keyword => pyContains (pyUpper (pyStrip query)) keyword) with
    | none => simp
    | some kw =>
      simp only [ne_eq, Prod.mk.injEq, not_and]
      intro _
      exact keyword_msg_ne_select_msg kw
  · intro hv
    have hq := is_safe_query_valid_not_blank query hv
    simp [execute_sql, hq, hv]

/-- Witness for `select_shape_rule`: the non-SELECT input "DROP TABLE T" is
rejected with the SELECT-only reason; the SELECT input "  select 1" (with
leading whitespace and lower case) passes the shape rule and reaches
execution unmodified. -/
theorem select_shape_rule_witness :
    (pyStartsWith (pyUpper (pyStrip "DROP TABLE T")) "SELECT" = false ∧
      is_safe_query "DROP TABLE T" = (false, "Only SELECT queries are allowed")) ∧
    (pyStartsWith (pyUpper (pyStrip "  select 1")) "SELECT" = true ∧
      is_safe_query "  select 1" ≠ (false, "Only SELECT queries are allowed")) ∧
    ((is_safe_query "  select 1").1 = true ∧
      execute_sql (fun _ _ => FutureResult.timedOut) "  select 1" =
        run_validated (fun _ _ => FutureResult.timedOut) "  select 1") :=
  ⟨⟨by decide, (select_shape_rule "DROP TABLE T" (fun _ _ => FutureResult.timedOut)).1
      (by decide)⟩,
    ⟨by decide, (select_shape_rule "  select 1" (fun _ _ => FutureResult.timedOut)).2.1
      (by decide)⟩,
    ⟨by decide, (select_shape_rule "  select 1" (fun _ _ => FutureResult.timedOut)).2.2
      (by decide)⟩⟩

end CuMcp

namespace CuMcp

/-- Evidence for C2 (code bug): when the worker's statement takes longer
than the deadline, the `TimeoutError` raised by `future.result` passes
through `ThreadPoolExecutor.__exit__`, whose `shutdown(wait=True)` joins the
still-running worker, so the caller regains control only when the abandoned
statement naturally finishes — not within approximately the deadline as the
claim states. The returned envelope is still the timeout failure with the
simplify-the-query hint. -/
theorem timeout_blocks_caller_until_worker_finishes :
    ∀ (worker_duration : Nat) (query : String),
      worker_duration > QUERY_TIMEOUT_SECONDS →
      pyStrip query ≠ "" →
      (is_safe_query query).1 = true →
      caller_unblock_time worker_duration = worker_duration ∧
      caller_unblock_time worker_duration ≠ QUERY_TIMEOUT_SECONDS ∧
      execute_sql (fun _ _ => FutureResult.timedOut) query =
        .failure ("Query exceeded " ++ toString QUERY_TIMEOUT_SECONDS ++ " second timeout")
          query (some "Simplify filters or aggregate before returning large result sets") := by
  intro worker_duration query hd hq hv
  have hmax : caller_unblock_time worker_duration = worker_duration := by
    simp only [caller_unblock_time, if_pos hd]
    exact Nat.max_eq_right (Nat.le_of_lt hd)
  refine ⟨hmax, ?_, ?_⟩
  · rw [hmax]; omega
  · simp [execute_sql, hq, hv, run_validated, _run_query, withConnection]

/-- Witness for `timeout_blocks_caller_until_worker_finishes` at a worker
that would take 15 seconds against the 10-second deadline. -/
theorem timeout_blocks_caller_witness :
    (15 > QUERY_TIMEOUT_SECONDS ∧ pyStrip "SELECT 1" ≠ "" ∧
      (is_safe_query "SELECT 1").1 = true) ∧
    (caller_unblock_time 15 = 15 ∧
      caller_unblock_time 15 ≠ QUERY_TIMEOUT_SECONDS ∧
      execute_sql (fun _ _ => FutureResult.timedOut) "SELECT 1" =
        .failure ("Query exceeded " ++ toString QUERY_TIMEOUT_SECONDS ++ " second timeout")
          "SELECT 1" (some "Simplify filters or aggregate before returning large result sets")) :=
  ⟨⟨by decide, by decide, by decide⟩,
    timeout_blocks_caller_until_worker_finishes 15 "SELECT 1" (by decide) (by decide)
      (by decide)⟩

/-- The claim of C3 fails on the source: `get_schema` has no `try`/`except`,
so when the dataset file is absent the `FileNotFoundError` raised by
`_ensure_database` inside `_get_connection` escapes the tool boundary as an
unhandled exception (`Except.error`) instead of an error envelope. -/
theorem get_schema_unhandled_exception :
    get_schema_tool false [] (some "foicu") = .error db_missing_message := rfl

/-- Amended C3: `execute_sql` converts every failure mode — including a
missing dataset file, re-raised out of the worker and caught by its
`except Exception` clause — into an error envelope, and `get_example_queries`
cannot fault; `get_schema` returns an envelope on every path while the
dataset file exists, but a dataset-connection fault (database file missing)
escapes it as an unhandled exception. -/
theorem tool_boundary_error_envelopes :
    (∀ (db_exists : Bool) (engine : Engine) (query : String),
      ∃ resp, execute_sql_tool db_exists engine query = .ok resp) ∧
    (∀ (category : Option String),
      ∃ resp, get_example_queries_tool category = .ok resp) ∧
    (∀ (db : Database) (table_name : Option String),
      ∃ resp, get_schema_tool true db table_name = .ok resp) ∧
    (∀ (db : Database) (table_name : Option String),
      get_schema_tool false db table_name = .error db_missing_message) :=
  ⟨fun _ _ _ => ⟨_, rfl⟩, fun _ => ⟨_, rfl⟩, fun _ _ => ⟨_, rfl⟩, fun _ _ => rfl⟩

/-- Confirmation of C7: `_get_connection` always opens the connection with
`read_only=True`, and both connection scopes of the core operations — the
worker body of `execute_sql` and the body of `get_schema` — open their
connection through it inside a `with` block, so the connection is read-only
and released before the call returns on every path. -/
theorem connections_read_only_and_scoped :
    _get_connection.read_only = true ∧
    (∀ (engine : Engine) (query : String),
      (_run_query engine query).opened_read_only = true ∧
      (_run_query engine query).released_before_return = true) ∧
    (∀ (db : Database) (table_name : Option String),
      (get_schema db table_name).opened_read_only = true ∧
      (get_schema db table_name).released_before_return = true) :=
  ⟨rfl, fun _ _ => ⟨rfl, rfl⟩, fun _ _ => ⟨rfl, rfl⟩⟩

end CuMcp

namespace CuMcp

/-- Confirmation of C5: when a successful execution produces more rows than
`MAX_ROWS`, `execute_sql` returns exactly the first `MAX_ROWS` rows in
engine result order (the serialization of `head MAX_ROWS`, which equals the
first `MAX_ROWS` entries of the full serialized result) together with a
non-empty "Results limited" warning; with at most `MAX_ROWS` rows it
returns all rows, in order, with no warning. -/
theorem execute_sql_row_cap :
    ∀ (engine : Engine) (query : String) (df : DataFrame),
      pyStrip query ≠ "" →
      (is_safe_query query).1 = true →
      engine _get_connection query = FutureResult.completed df →
      (df.len > MAX_ROWS →
        ∃ w, w ≠ "" ∧
          execute_sql engine query =
            .success (_serialize_dataframe (df.head MAX_ROWS)) MAX_ROWS query (some w) ∧
          _serialize_dataframe (df.head MAX_ROWS) =
            (_serialize_dataframe df).take MAX_ROWS) ∧
      (df.len ≤ MAX_ROWS →
        execute_sql engine query =
          .success (_serialize_dataframe df) df.len query none) := by
  intro engine query df hq hv hrun
  have hexec : execute_sql engine query = run_validated engine query := by
    simp [execute_sql, hq, hv]
  have hval : (_run_query engine query).value = FutureResult.completed df := by
    simp [_run_query, withConnection, hrun]
  constructor
  · intro hgt
    have hgt' : df.rows.length > 1000 := by
      simpa [DataFrame.len, MAX_ROWS] using hgt
    have hlen : (df.head MAX_ROWS).len = MAX_ROWS := by
      simp only [DataFrame.head, DataFrame.len, List.length_take, MAX_ROWS]
      omega
    refine ⟨"Results limited to " ++ toString MAX_ROWS ++ " rows (too many to display)",
      by decide, ?_, ?_⟩
    · rw [hexec]
      simp only [run_validated, hval]
      rw [if_pos hgt, hlen]
    · by_cases hc : df.columns = []
      · simp [_serialize_dataframe, DataFrame.empty, DataFrame.head, hc]
      · have h1 : df.rows ≠ [] := by
          intro h0
          rw [h0] at hgt'
          simp at hgt'
        have h2 : df.rows.take MAX_ROWS ≠ [] := by
          intro h0
          have hl : (df.rows.take MAX_ROWS).length = 0 := by rw [h0]; rfl
          rw [List.length_take] at hl
          simp only [MAX_ROWS] at hl
          omega
        have e1 : _serialize_dataframe df = df.rows.map (_serialize_row df.columns) := by
          simp [_serialize_dataframe, DataFrame.empty, List.isEmpty_iff, h1, hc]
        have e2 : _serialize_dataframe (df.head MAX_ROWS) =
            (df.rows.take MAX_ROWS).map (_serialize_row df.columns) := by
          simp [_serialize_dataframe, DataFrame.empty, DataFrame.head, List.isEmpty_iff,
            h2, hc]
        rw [e1, e2, List.map_take]
  · intro hle
    rw [hexec]
    simp only [run_validated, hval]
    rw [if_neg (Nat.not_lt.mpr hle)]

/-- Witness for `execute_sql_row_cap`: a concrete 1001-row frame against the
1000-row cap. -/
theorem execute_sql_row_cap_witness :
    (pyStrip "SELECT 1" ≠ "" ∧ (is_safe_query "SELECT 1").1 = true ∧
      capWitnessFrame.len > MAX_ROWS) ∧
    (∃ w, w ≠ "" ∧
      execute_sql (fun _ _ => FutureResult.completed capWitnessFrame) "SELECT 1" =
        .success (_serialize_dataframe (capWitnessFrame.head MAX_ROWS)) MAX_ROWS
          "SELECT 1" (some w) ∧
      _serialize_dataframe (capWitnessFrame.head MAX_ROWS) =
        (_serialize_dataframe capWitnessFrame).take MAX_ROWS) :=
  ⟨⟨by decide, by decide,
      by simp only [capWitnessFrame, DataFrame.len, List.length_replicate, MAX_ROWS]; omega⟩,
    (execute_sql_row_cap (fun _ _ => FutureResult.completed capWitnessFrame) "SELECT 1"
        capWitnessFrame (by decide) (by decide) rfl).1
      (by simp only [capWitnessFrame, DataFrame.len, List.length_replicate, MAX_ROWS]; omega)⟩

end CuMcp

namespace CuMcp

/-- Helper: ASCII lower-casing maps exactly the empty string to the empty
string. -/
theorem pyLower_eq_empty_iff (s : String) : pyLower s = "" ↔ s = "" := by
  cases s with
  | mk data =>
    constructor
    · intro h
      have hd : data.map Char.toLower = ([] : List Char) := congrArg String.data h
      have h0 : data = [] := List.map_eq_nil_iff.mp hd
      rw [h0]
    · intro h
      rw [h]
      rfl

/-- Helper: the describe path of `get_schema`, unfolded — for a caller name
that does not strip to the empty string, the result is determined by
`lookup_table` on the stripped name. -/
theorem get_schema_describe_eq (db : Database) (n : String) (hn : pyStrip n ≠ "") :
    (get_schema db (some n)).value =
      match lookup_table db (pyStrip n) with
      | none => SchemaResponse.error ("Table or view '" ++ n ++ "' not found")
      | some r => SchemaResponse.detail
          { table_name := r.name
            type := _table_type_to_string r.table_type
            description := dictGet TABLE_DESCRIPTIONS r.name
            columns := r.columns.map (fun c =>
              { name := c.1
                type := c.2
                description := dictGet COLUMN_DESCRIPTIONS c.1 })
            row_count := r.row_count
            sample_data := _serialize_dataframe
              (if (r.columns.map (fun c => pyLower c.1)).contains "cycle_date" then
                r.sample_latest_cycle
              else r.sample_first_rows) } := by
  have hne : n ≠ "" := by
    intro h0
    apply hn
    rw [h0]
    rfl
  simp only [get_schema, withConnection, get_schema_body, Option.getD_some]
  rw [if_neg (by simp [hne]), if_neg hn]

/-- Confirmation of C8: resolution in `get_schema`'s describe path depends
only on the lower-cased stripped name, so names differing only in case
resolve to the same relation and produce the same schema record; and a name
matching no relation yields the not-found error envelope, never a
successful schema record. -/
theorem get_schema_describe_case_insensitive :
    (∀ (db : Database) (n1 n2 : String),
      pyLower (pyStrip n1) = pyLower (pyStrip n2) →
      lookup_table db (pyStrip n1) = lookup_table db (pyStrip n2)) ∧
    (∀ (db : Database) (n1 n2 : String) (r : RelationData),
      pyLower (pyStrip n1) = pyLower (pyStrip n2) →
      pyStrip n1 ≠ "" →
      lookup_table db (pyStrip n1) = some r →
      (get_schema db (some n1)).value = (get_schema db (some n2)).value ∧
      ∃ rec, (get_schema db (some n1)).value = SchemaResponse.detail rec) ∧
    (∀ (db : Database) (name : String),
      pyStrip name ≠ "" →
      lookup_table db (pyStrip name) = none →
      (get_schema db (some name)).value =
        SchemaResponse.error ("Table or view '" ++ name ++ "' not found") ∧
      ∀ rec, (get_schema db (some name)).value ≠ SchemaResponse.detail rec) := by
  refine ⟨?_, ?_, ?_⟩
  · intro db n1 n2 h
    simp only [lookup_table]
    rw [h]
  · intro db n1 n2 r h hne1 hsome
    have hne2 : pyStrip n2 ≠ "" := by
      intro h0
      rw [h0] at h
      have hempty : pyLower (pyStrip n1) = "" := by rw [h]; rfl
      exact hne1 ((pyLower_eq_empty_iff _).mp hempty)
    have hsome2 : lookup_table db (pyStrip n2) = some r := by
      have hsame : lookup_table db (pyStrip n1) = lookup_table db (pyStrip n2) := by
        simp only [lookup_table]
        rw [h]
      rw [← hsame]
      exact hsome
    rw [get_schema_describe_eq db n1 hne1, get_schema_describe_eq db n2 hne2, hsome, hsome2]
    exact ⟨rfl, _, rfl⟩
  · intro db name hn hnone
    rw [get_schema_describe_eq db name hn, hnone]
    exact ⟨rfl, fun rec h => SchemaResponse.noConfusion h⟩

/-- Witness for `get_schema_describe_case_insensitive` on a concrete
one-relation catalog: "foicu" and "FOICU" resolve identically, and
"NONEXISTENT" yields the not-found error. -/
theorem get_schema_case_insensitive_witness :
    (pyLower (pyStrip "foicu") = pyLower (pyStrip "FOICU") ∧
      lookup_table schemaWitnessDb (pyStrip "foicu") =
        lookup_table schemaWitnessDb (pyStrip "FOICU")) ∧
    (pyStrip "foicu" ≠ "" ∧
      lookup_table schemaWitnessDb (pyStrip "foicu") = some schemaWitnessRel ∧
      (get_schema schemaWitnessDb (some "foicu")).value =
        (get_schema schemaWitnessDb (some "FOICU")).value ∧
      ∃ rec, (get_schema schemaWitnessDb (some "foicu")).value =
        SchemaResponse.detail rec) ∧
    (pyStrip "NONEXISTENT" ≠ "" ∧
      lookup_table schemaWitnessDb (pyStrip "NONEXISTENT") = none ∧
      (get_schema schemaWitnessDb (some "NONEXISTENT")).value =
        SchemaResponse.error ("Table or view '" ++ "NONEXISTENT" ++ "' not found") ∧
      ∀ rec, (get_schema schemaWitnessDb (some "NONEXISTENT")).value ≠
        SchemaResponse.detail rec) :=
  ⟨⟨by decide,
      get_schema_describe_case_insensitive.1 schemaWitnessDb "foicu" "FOICU" (by decide)⟩,
    ⟨by decide, by decide,
      get_schema_describe_case_insensitive.2.1 schemaWitnessDb "foicu" "FOICU"
        schemaWitnessRel (by decide) (by decide) (by decide)⟩,
    ⟨by decide, by decide,
      get_schema_describe_case_insensitive.2.2 schemaWitnessDb "NONEXISTENT"
        (by decide) (by decide)⟩⟩

end CuMcp

namespace CuMcp

/-- Confirmation of C9: the serializer maps an empty tabular result to the
empty sequence; it preserves row order (the i-th output record is the
serialization of the i-th input row) and column order (the keys of each
record are the result's columns, in order); and a null cell stays present
under its column key as an explicit null marker, never omitted. -/
theorem serialize_dataframe_contract :
    (∀ (cols : List String), _serialize_dataframe ⟨cols, []⟩ = []) ∧
    (∀ (frame : DataFrame), frame.columns ≠ [] →
      (_serialize_dataframe frame).length = frame.rows.length ∧
      ∀ i : Nat, (_serialize_dataframe frame)[i]? =
        (frame.rows[i]?).map (_serialize_row frame.columns)) ∧
    (∀ (cols : List String) (row : List (Option Scalar)),
      row.length = cols.length →
      (_serialize_row cols row).map Prod.fst = cols ∧
      ∀ j : Nat, row[j]? = some none →
        ∃ key, cols[j]? = some key ∧
          (_serialize_row cols row)[j]? = some (key, none)) := by
  refine ⟨?_, ?_, ?_⟩
  · intro cols
    simp [_serialize_dataframe, DataFrame.empty]
  · intro frame hc
    obtain ⟨cols, rows⟩ := frame
    simp only at hc
    cases rows with
    | nil =>
      refine ⟨by simp [_serialize_dataframe, DataFrame.empty], ?_⟩
      intro i
      simp [_serialize_dataframe, DataFrame.empty]
    | cons a as =>
      have hs : _serialize_dataframe ⟨cols, a :: as⟩ = (a :: as).map (_serialize_row cols) := by
        simp [_serialize_dataframe, DataFrame.empty, List.isEmpty_iff, hc]
      refine ⟨by rw [hs]; simp, ?_⟩
      intro i
      rw [hs, List.getElem?_map]
  · intro cols row h
    constructor
    · have hfst : (cols.zip row).map Prod.fst = cols :=
        List.map_fst_zip cols row (le_of_eq h.symm)
      calc (_serialize_row cols row).map Prod.fst
          = (cols.zip row).map Prod.fst := by
            simp [_serialize_row, List.map_map, Function.comp]
        _ = cols := hfst
    · intro j hnull
      have hj : j < row.length := by
        by_contra hge
        rw [List.getElem?_eq_none (by omega)] at hnull
        cases hnull
      have hjc : j < cols.length := by omega
      have hjz : j < (cols.zip row).length := by
        rw [List.length_zip]
        omega
      have hrj : row[j] = none := by
        have he := List.getElem?_eq_getElem hj
        rw [he] at hnull
        exact Option.some.inj hnull
      refine ⟨cols[j], List.getElem?_eq_getElem hjc, ?_⟩
      have hz : (cols.zip row)[j]? = some (cols[j], row[j]) := by
        rw [List.getElem?_eq_getElem hjz, List.getElem_zip]
      simp [_serialize_row, List.getElem?_map, hz, hrj]

/-- Witness for `serialize_dataframe_contract` at a one-column frame whose
single row holds a single null cell. -/
theorem serialize_dataframe_contract_witness :
    (_serialize_dataframe ⟨["a"], []⟩ = []) ∧
    ((["a"] : List String) ≠ [] ∧
      ((_serialize_dataframe ⟨["a"], [[none]]⟩).length =
          ([[none]] : List (List (Option Scalar))).length ∧
        ∀ i : Nat, (_serialize_dataframe ⟨["a"], [[none]]⟩)[i]? =
          ((([[none]] : List (List (Option Scalar))))[i]?).map (_serialize_row ["a"]))) ∧
    (([none] : List (Option Scalar)).length = (["a"] : List String).length ∧
      ((_serialize_row ["a"] [none]).map Prod.fst = ["a"] ∧
        ∀ j : Nat, ([none] : List (Option Scalar))[j]? = some none →
          ∃ key, (["a"] : List String)[j]? = some key ∧
            (_serialize_row ["a"] [none])[j]? = some (key, none))) :=
  ⟨serialize_dataframe_contract.1 ["a"],
    ⟨by decide, serialize_dataframe_contract.2.1 ⟨["a"], [[none]]⟩ (by decide)⟩,
    ⟨by decide, serialize_dataframe_contract.2.2 ["a"] [none] (by decide)⟩⟩

end CuMcp

namespace CuMcp

set_option maxRecDepth 8192

/-- Confirmation of C10: every entry of the static example-query catalog
stores SQL text that begins with a "--" comment line, so its stripped
upper-cased text does not start with SELECT: `is_safe_query` rejects every
catalog entry with the SELECT-only reason, and `execute_sql` refuses to run
it unmodified, returning the error envelope — no catalog template passes
validation as-is, despite the response note of `get_example_queries` saying
the queries can be used as-is. -/
theorem example_catalog_rejected_as_is :
    ∀ ex ∈ EXAMPLE_QUERIES,
      pyStartsWith ex.sql "--" = true ∧
      is_safe_query ex.sql = (false, "Only SELECT queries are allowed") ∧
      ∀ engine : Engine,
        execute_sql engine ex.sql =
          .failure "Only SELECT queries are allowed" ex.sql none := by
  have hall : (EXAMPLE_QUERIES.all (fun ex =>
      pyStartsWith ex.sql "--" &&
      decide (is_safe_query ex.sql = (false, "Only SELECT queries are allowed")) &&
      decide (¬ pyStrip ex.sql = ""))) = true := by decide
  intro ex hex
  have h := List.all_eq_true.mp hall ex hex
  simp only [Bool.and_eq_true, decide_eq_true_eq] at h
  obtain ⟨⟨h1, h2⟩, h3⟩ := h
  exact ⟨h1, h2, fun engine => execute_sql_rejects_invalid engine ex.sql _ h3 h2⟩

/-- Witness for `example_catalog_rejected_as_is` at the first catalog
entry. -/
theorem example_catalog_rejected_as_is_witness :
    (EXAMPLE_QUERIES.headI ∈ EXAMPLE_QUERIES) ∧
    (pyStartsWith EXAMPLE_QUERIES.headI.sql "--" = true ∧
      is_safe_query EXAMPLE_QUERIES.headI.sql =
        (false, "Only SELECT queries are allowed") ∧
      ∀ engine : Engine,
        execute_sql engine EXAMPLE_QUERIES.headI.sql =
          .failure "Only SELECT queries are allowed" EXAMPLE_QUERIES.headI.sql none) :=
  ⟨by decide, example_catalog_rejected_as_is EXAMPLE_QUERIES.headI (by decide)⟩

end CuMcp
